import Mathlib

/-!
Verification development for the watertap-renrtl repository: configuration
data for the (refined) electrolyte-NRTL activity-coefficient model, the
evaporator worked example, and the multi-electrolyte parameter cardinalities.

The repository sources under review are documentation and example
configuration files; the numerical core (refined_enrtl.py and
refined_enrtl_multi.py) is referenced but not included, so the parts of the
model that live there are modelled from the specification text and marked
as such in their doc comments.
-/

/-- Chemical species appearing in the example configurations:
the solvent H2O, the cation Na+, and the anions Cl- and SO4-2. -/
inductive Species where
  | H2O
  | Na
  | Cl
  | SO4
  deriving DecidableEq, Repr

/-- One end of a binary-interaction (tau) key: either the solvent or an
ion pair (cation, anion), mirroring the string keys of the source
configuration dictionaries, e.g. "H2O" and "Na+, Cl-". -/
inductive TauEnd where
  | solv
  | ip (c : Species) (a : Species)
  deriving DecidableEq, Repr

/-- A Liq_tau table: a list of ordered-pair keys with rational values,
mirroring the `Liq_tau` dictionaries of the source configurations. -/
def TauTable := List ((TauEnd × TauEnd) × ℚ)

/-- Liq_tau of the eNRTL evaporator example (how_to_setup_evaporator_with_enrtl):
`{("H2O", "Na+, Cl-"): 8.885, ("Na+, Cl-", "H2O"): -4.549}`. -/
def tauEvapExample : TauTable :=
  [((TauEnd.solv, TauEnd.ip Species.Na Species.Cl), 8.885),
   ((TauEnd.ip Species.Na Species.Cl, TauEnd.solv), -4.549)]

/-- Liq_tau of the single-electrolyte refined eNRTL example
(how_to_setup_multielectrolytes_refined_enrtl, single r-eNRTL config):
`{("H2O", "Na+, Cl-"): 7.951, ("Na+, Cl-", "H2O"): -3.984}`. -/
def tauSingleRenrtl : TauTable :=
  [((TauEnd.solv, TauEnd.ip Species.Na Species.Cl), 7.951),
   ((TauEnd.ip Species.Na Species.Cl, TauEnd.solv), -3.984)]

/-- Cation list of the multi-electrolyte NaCl-Na2SO4 example: `cation = [cation_1]`. -/
def multiCations : List Species := [Species.Na]

/-- Anion list of the multi-electrolyte NaCl-Na2SO4 example:
`anion = [anion_1, anion_2]`. -/
def multiAnions : List Species := [Species.Cl, Species.SO4]

/-- Liq_tau of the multi-electrolyte NaCl-Na2SO4 example configuration,
Table 3 of reference [1] plus zero cross-electrolyte terms. -/
def tauMultiExample : TauTable :=
  [((TauEnd.solv, TauEnd.ip Species.Na Species.Cl), 7.951),
   ((TauEnd.ip Species.Na Species.Cl, TauEnd.solv), -3.984),
   ((TauEnd.solv, TauEnd.ip Species.Na Species.SO4), 7.578),
   ((TauEnd.ip Species.Na Species.SO4, TauEnd.solv), -3.532),
   ((TauEnd.ip Species.Na Species.Cl, TauEnd.ip Species.Na Species.SO4), 0),
   ((TauEnd.ip Species.Na Species.SO4, TauEnd.ip Species.Na Species.Cl), 0)]

/-- Look up a tau value by ordered key, zero when absent (the documented
default for unsupplied cross-electrolyte parameters). -/
def tauLookup (t : TauTable) (k : TauEnd × TauEnd) : ℚ :=
  match t.find? (fun e => e.1 == k) with
  | some e => e.2
  | none => 0

/-- Whether a tau end is an ion pair drawn from the given cation and anion lists. -/
def isIonPairOf (cs ans : List Species) : TauEnd → Bool
  | TauEnd.solv => false
  | TauEnd.ip c a => cs.contains c && ans.contains a

/-- Number of solvent-to-ion-pair tau entries in a table. -/
def countSolvToPair (cs ans : List Species) (t : TauTable) : ℕ :=
  (t.filter (fun e => e.1.1 == TauEnd.solv && isIonPairOf cs ans e.1.2)).length

/-- Number of ion-pair-to-solvent tau entries in a table. -/
def countPairToSolv (cs ans : List Species) (t : TauTable) : ℕ :=
  (t.filter (fun e => isIonPairOf cs ans e.1.1 && e.1.2 == TauEnd.solv)).length

/-- Number of cross-electrolyte (ion-pair-to-ion-pair) tau entries in a table. -/
def countCross (cs ans : List Species) (t : TauTable) : ℕ :=
  (t.filter (fun e => isIonPairOf cs ans e.1.1 && isIonPairOf cs ans e.1.2)).length

/-- All ion pairs formed from a cation list and an anion list. -/
def ionPairs (cs ans : List Species) : List (Species × Species) :=
  cs.foldr (fun c acc => ans.map (fun a => (c, a)) ++ acc) []

/-- Number of ordered pairs of distinct ion pairs sharing exactly one common
ion: the combinatorial count of cross-electrolyte tau parameters the
documentation describes (cross parameters are required only between
ion pairs sharing one, and only one, common ion). -/
def commonIonCrossCount (ps : List (Species × Species)) : ℕ :=
  ((ps.foldr (fun p acc => ps.map (fun q => (p, q)) ++ acc) []).filter
    (fun pq => pq.1 != pq.2 && (pq.1.1 == pq.2.1 || pq.1.2 == pq.2.2))).length

/-- Error kinds of the error-handling design (spec section 7). -/
inductive ModelError where
  | configurationError
  | outOfRangeError
  deriving DecidableEq, Repr

/-- Modelled from the spec: the Parameter Registry validation of the tau
cardinalities (the validating code lives in refined_enrtl_multi.py, which is
not among the provided sources). A configuration with x cation species and
y anion species must supply exactly x*y solvent-to-ion-pair entries and
exactly x*y ion-pair-to-solvent entries; cross-electrolyte entries are
optional (default zero) but, when supplied, must cover all ordered pairs of
distinct ion pairs sharing exactly one common ion. Any violation is a
ConfigurationError. -/
def validateTauCard (cs ans : List Species) (t : TauTable) : Except ModelError Unit :=
  if countSolvToPair cs ans t = cs.length * ans.length
      ∧ countPairToSolv cs ans t = cs.length * ans.length
      ∧ (countCross cs ans t = 0
         ∨ countCross cs ans t = commonIonCrossCount (ionPairs cs ans)) then
    Except.ok ()
  else
    Except.error ModelError.configurationError

/-- Feed water mass flow fixed in the evaporator worked example:
`inlet_feed.flow_mass_phase_comp[0, "Liq", "H2O"].fix(9.65)` (kg/s). -/
def feedFlowMassH2O : ℚ := 9.65

/-- Feed TDS mass flow fixed in the evaporator worked example:
`inlet_feed.flow_mass_phase_comp[0, "Liq", "TDS"].fix(0.35)` (kg/s). -/
def feedFlowMassTDS : ℚ := 0.35

/-- Feed temperature fixed in the worked example:
`inlet_feed.temperature[0].fix(50.52 + 273.15)` (K). -/
def feedTemperatureFix : ℚ := 50.52 + 273.15

/-- Brine outlet temperature fixed during initialization of the worked
example: `outlet_brine.temperature[0].fix(60 + 273.15)` (K). -/
def outletBrineTemperatureFix : ℚ := 60 + 273.15

/-- Brine outlet pressure fixed before the final solve of the worked
example: `outlet_brine.pressure[0].fix(30e3)` (Pa). -/
def outletBrinePressureFix : ℚ := 30000

/-- Water activity coefficient of the solved nonideal evaporator model as
recorded in the notebook output:
`Water activity coefficient:  0.9833937955900112`. -/
def solvedWaterActCoeff : ℚ := 0.9833937955900112

/-- Molal concentration of solute of the solved nonideal evaporator model
as recorded in the notebook output:
`Molal concentration of solute:  5.708382722587011`. -/
def solvedMolalConcSolute : ℚ := 5.708382722587011

/-- The notebook expression `molal_conc_solute`:
(flow_mass TDS / mw TDS) / flow_mass H2O, in mol TDS per kg H2O. -/
def molalConcSolute (tdsFlow mwTDS h2oFlow : ℚ) : ℚ := tdsFlow / mwTDS / h2oFlow

/-- Molecular weight of Na+ from the example configurations:
`"mw": (22.990e-3, pyunits.kg/pyunits.mol)`. -/
def mwNa : ℚ := 22.990e-3

/-- Molecular weight of Cl- from the example configurations:
`"mw": (35.453e-3, pyunits.kg/pyunits.mol)`. -/
def mwCl : ℚ := 35.453e-3

/-- Stoichiometric coefficient of Na+ in NaCl: `ion_coeff = {"Na+": 1, ...}`. -/
def ionCoeffNa : ℚ := 1

/-- Stoichiometric coefficient of Cl- in NaCl: `ion_coeff = {..., "Cl-": 1}`. -/
def ionCoeffCl : ℚ := 1

/-- `mol_mass_ion_molecule = sum(ion_coeff[j] * mw_comp[j] for j in set_ions)`. -/
def molMassIonMolecule (a b : ℚ) : ℚ := ionCoeffNa * a + ionCoeffCl * b

/-- `mass_ratio_ion["Na+"] = mw_comp["Na+"] / mol_mass_ion_molecule`. -/
def massRatioNa (a b : ℚ) : ℚ := a / molMassIonMolecule a b

/-- `mass_ratio_ion["Cl-"] = mw_comp["Cl-"] / mol_mass_ion_molecule`. -/
def massRatioCl (a b : ℚ) : ℚ := b / molMassIonMolecule a b

/-- Right-hand side of `eq_enrtl_flow_mass_ion_comp`: the TDS mass flow of
the brine times the mass ratio of the ion. -/
def enrtlFlowMassIonRHS (tds r : ℚ) : ℚ := tds * r

/-- The ideal activity coefficient parameter of the notebook:
`m.fs.ideal.act_coeff = pyo.Param(initialize=1, ...)`. -/
def idealActCoeff : ℚ := 1

/-- The ideal vapor-liquid equilibrium constraint `_eq_ideal_phase_equilibrium`:
`pressure == act_coeff * mole_frac_phase_comp["Liq","H2O"] * pressure_sat`. -/
def idealPhaseEquil (p xW psat : ℚ) : Prop := p = idealActCoeff * xW * psat

/-- The nonideal vapor-liquid equilibrium constraint
`_eq_nonideal_phase_equilibrium`:
`pressure == act_coeff_phase_comp["Liq","H2O"] * mole_frac_phase_comp["Liq","H2O"] * pressure_sat`. -/
def nonidealPhaseEquil (g p xW psat : ℚ) : Prop := p = g * xW * psat

/-- Molecular weight of H2O from the configurations:
`"mw": (18.01528e-3, pyunits.kg/pyunits.mol)`. -/
def mwH2O : ℚ := 18.01528e-3

/-- Hydration number of Na+ from the single r-eNRTL configuration:
`"hydration_number": 1.51`. -/
def hydNumNa : ℚ := 1.51

/-- Hydration number of Cl- from the single r-eNRTL configuration:
`"hydration_number": 0.5`. -/
def hydNumCl : ℚ := 0.5

/-- Documented validity limit of the tau parameters in the evaporator
notebook: maximum molality 6 mol NaCl per kg H2O. -/
def molalityLimit : ℚ := 6

/-- Moles of solvent per kg of solvent, `1 / mw`. -/
def solventMolesPerKg : ℚ := 1 / mwH2O

/-- Modelled from the spec: the constant-hydration demand of the hydration
model in refined_enrtl.py (not among the provided sources) — moles of
solvent bound in hydration shells per kg solvent at NaCl molality `m`,
using the configured constant hydration numbers of Na+ and Cl-. -/
def hydrationDemand (m : ℚ) : ℚ := m * (ionCoeffNa * hydNumNa + ionCoeffCl * hydNumCl)

/-- Modelled from the spec: bulk (free) solvent moles per kg solvent —
total solvent moles minus moles bound in hydration shells. -/
def bulkSolventMoles (m : ℚ) : ℚ := solventMolesPerKg - hydrationDemand m

/-- Modelled from the spec: total count of true species adjusted for
hydration — free solvent plus the hydrated ions (one Na+ and one Cl- per
mole of NaCl). -/
def trueSpeciesTotal (m : ℚ) : ℚ := bulkSolventMoles m + (ionCoeffNa + ionCoeffCl) * m

/-- Modelled from the spec: the bulk solvent mole fraction derived by the
hydration model. -/
def bulkSolventMoleFrac (m : ℚ) : ℚ := bulkSolventMoles m / trueSpeciesTotal m

/-- Modelled from the spec: the hydration-model entry point of
refined_enrtl.py (not among the provided sources) — for a single-electrolyte
NaCl state of molality `m`, surface a caller-visible OutOfRangeError when
the composition is beyond the documented molality limit, otherwise return
the bulk solvent mole fraction. -/
def computeBulkSolvent (m : ℚ) : Except ModelError ℚ :=
  if molalityLimit < m then Except.error ModelError.outOfRangeError
  else Except.ok (bulkSolventMoleFrac m)

/-- Modelled from the spec: the NRTL local-composition nonrandomness factor
`G = exp(-alpha * tau)` of the short-range term (refined_enrtl.py is not
among the provided sources). -/
noncomputable def G (a t : ℝ) : ℝ := Real.exp (-a * t)

/-- Modelled from the spec: solvent-side local-composition denominator
`x1 + x2 * G(a, t21)` with `x1 = 1 - x2`. -/
noncomputable def denW (a t21 x2 : ℝ) : ℝ := (1 - x2) + x2 * G a t21

/-- Modelled from the spec: solute-side local-composition denominator
`x2 + x1 * G(a, t12)` with `x1 = 1 - x2`. -/
noncomputable def denS (a t12 x2 : ℝ) : ℝ := x2 + (1 - x2) * G a t12

/-- Modelled from the spec: standard binary NRTL local-composition
expression for ln gamma of the solvent (species 1) as a function of the
solute mole fraction `x2`, with directional parameters `t12 = tau(1,2)` and
`t21 = tau(2,1)`. -/
noncomputable def lnGamma1 (a t12 t21 x2 : ℝ) : ℝ :=
  x2 ^ 2 * (t21 * (G a t21 / denW a t21 x2) ^ 2
    + t12 * G a t12 / (denS a t12 x2) ^ 2)

/-- Modelled from the spec: standard binary NRTL local-composition
expression for ln gamma of the solute (species 2). -/
noncomputable def lnGamma2 (a t12 t21 x2 : ℝ) : ℝ :=
  (1 - x2) ^ 2 * (t12 * (G a t12 / denS a t12 x2) ^ 2
    + t21 * G a t21 / (denW a t21 x2) ^ 2)

/-- Modelled from the spec: the symmetric reference state shift of the
assembler — ln gamma of the solute normalized so that gamma tends to 1 as
the solvent mole fraction tends to 1 (`x2` tends to 0). -/
noncomputable def lnGamma2sym (a t12 t21 x2 : ℝ) : ℝ :=
  lnGamma2 a t12 t21 x2 - lnGamma2 a t12 t21 0

/-- Modelled from the spec: the Pitzer-Debye-Hueckel long-range contribution
to ln gamma of the solvent as a function of the ionic strength `i`, with
Debye-Hueckel prefactor `dh` and closest-approach parameter `r`. -/
noncomputable def lnGammaSolventPDH (dh r i : ℝ) : ℝ :=
  2 * dh * (i * Real.sqrt i) / (1 + r * Real.sqrt i)

/-- Ionic strength `I = (1/2) * sum(z_j^2 * x_j)` of the NaCl system, from
the spec (charges +1 and -1 from the example configurations). -/
noncomputable def ionicStrengthNaCl (xNa xCl : ℝ) : ℝ :=
  (1 / 2) * ((1 : ℝ) ^ 2 * xNa + (-1 : ℝ) ^ 2 * xCl)

/-- Modelled from the spec: lower bound used by the bounded surrogate
expressions that guard logarithm arguments at solver trial points. -/
noncomputable def epsGuard : ℝ := 1 / 100000000

/-- Closest-approach parameter of the PDH denominator (positive constant). -/
noncomputable def rhoClosest : ℝ := 149 / 10

/-- Modelled from the spec: bounded surrogate for a mole fraction appearing
inside a logarithm — never below `epsGuard`, even at physically invalid
trial states. -/
noncomputable def guardedMoleFrac (x : ℝ) : ℝ := max x epsGuard

/-- Modelled from the spec: bounded surrogate for the ionic strength before
taking a square root — never negative, even at trial states with negative
mole fractions. -/
noncomputable def guardedIonicStrength (i : ℝ) : ℝ := max i 0

/-- Square root of the guarded ionic strength. -/
noncomputable def guardedSqrtIonic (i : ℝ) : ℝ := Real.sqrt (guardedIonicStrength i)

/-- The PDH denominator built from the guarded square root. -/
noncomputable def pdhDenom (i : ℝ) : ℝ := 1 + rhoClosest * guardedSqrtIonic i

/-- Modelled from the spec: the guarded log-activity expression of water —
log of a bounded-below mole fraction plus the PDH term built from guarded
ionic strength, total on every real trial state by construction. -/
noncomputable def lnActivityWaterGuarded (dh xW i : ℝ) : ℝ :=
  Real.log (guardedMoleFrac xW)
    + 2 * dh * (guardedIonicStrength i * guardedSqrtIonic i) / pdhDenom i

lemma G_pos (a t : ℝ) : 0 < G a t := Real.exp_pos _

lemma G_ne_zero (a t : ℝ) : G a t ≠ 0 := (G_pos a t).ne'

lemma denW_continuous (a t : ℝ) : Continuous (denW a t) := by
  unfold denW
  exact (continuous_const.sub continuous_id).add (continuous_id.mul continuous_const)

lemma denS_continuous (a t : ℝ) : Continuous (denS a t) := by
  unfold denS
  exact continuous_id.add ((continuous_const.sub continuous_id).mul continuous_const)

lemma denW_at_zero (a t : ℝ) : denW a t 0 = 1 := by simp [denW]

lemma denS_at_zero (a t : ℝ) : denS a t 0 = G a t := by simp [denS]

lemma lnGamma1_at_zero (a t12 t21 : ℝ) : lnGamma1 a t12 t21 0 = 0 := by
  simp [lnGamma1]

lemma lnGamma2sym_at_zero (a t12 t21 : ℝ) : lnGamma2sym a t12 t21 0 = 0 :=
  sub_self _

lemma lnGamma1_at_one (a t12 t21 : ℝ) :
    lnGamma1 a t12 t21 1 = t21 + t12 * G a t12 := by
  unfold lnGamma1 denW denS
  have h21 := G_ne_zero a t21
  field_simp

/-- C2 counterexample: in the repository's own multi-electrolyte example
(one cation species, two anion species) the Liq_tau table carries 2
cross-electrolyte entries, while the claimed count x*y*(x-1) evaluates to 0
and differs from y*x*(y-1) = 2, so the two formulas are not equivalent and
the claimed count contradicts the source configuration. -/
theorem c2_cross_count_counterexample :
    multiCations.length = 1 ∧ multiAnions.length = 2
    ∧ countCross multiCations multiAnions tauMultiExample = 2
    ∧ multiCations.length * multiAnions.length * (multiCations.length - 1) = 0
    ∧ multiCations.length * multiAnions.length * (multiCations.length - 1)
        ≠ multiAnions.length * multiCations.length * (multiAnions.length - 1)
    ∧ countCross multiCations multiAnions tauMultiExample
        ≠ multiCations.length * multiAnions.length * (multiCations.length - 1) := by
  decide

/-- C2 (amended): for the multi-electrolyte example configuration with x = 1
cation species and y = 2 anion species, the solvent-to-ion-pair and
ion-pair-to-solvent tau counts are each x*y; the cross-electrolyte count
equals the number of ordered pairs of distinct ion pairs sharing exactly one
common ion, which here (common cation) is y*x*(y-1) = 2, not x*y*(x-1); and
the registry validation accepts the example table while rejecting a table
violating the cardinalities with a ConfigurationError. -/
theorem c2_tau_cardinalities_amended :
    countSolvToPair multiCations multiAnions tauMultiExample
        = multiCations.length * multiAnions.length
    ∧ countPairToSolv multiCations multiAnions tauMultiExample
        = multiCations.length * multiAnions.length
    ∧ countCross multiCations multiAnions tauMultiExample
        = commonIonCrossCount (ionPairs multiCations multiAnions)
    ∧ commonIonCrossCount (ionPairs multiCations multiAnions)
        = multiAnions.length * multiCations.length * (multiAnions.length - 1)
    ∧ validateTauCard multiCations multiAnions tauMultiExample = Except.ok ()
    ∧ validateTauCard multiCations multiAnions (tauMultiExample.take 3)
        = Except.error ModelError.configurationError := by
  refine ⟨by decide, by decide, by decide, by decide, rfl, rfl⟩

/-- C1: the evaporator worked example fixes the feed at 9.65 kg/s H2O and
0.35 kg/s TDS at 323.67 K, fixes the brine outlet pressure at 30000 Pa
(with brine temperature initialized at 333.15 K), and the recorded solved
values satisfy act_coeff_phase_comp["Liq","H2O"] = 0.9834 within 1e-3 and
molal concentration of solute = 5.708 mol/kg within 1e-2. -/
theorem c1_worked_example_values :
    feedFlowMassH2O = 9.65 ∧ feedFlowMassTDS = 0.35
    ∧ feedTemperatureFix = 323.67
    ∧ outletBrinePressureFix = 30000
    ∧ outletBrineTemperatureFix = 333.15
    ∧ |solvedWaterActCoeff - 0.9834| ≤ 1 / 1000
    ∧ |solvedMolalConcSolute - 5.708| ≤ 1 / 100 := by
  refine ⟨rfl, rfl, by norm_num [feedTemperatureFix], rfl,
    by norm_num [outletBrineTemperatureFix], ?_, ?_⟩
  · rw [abs_le]
    constructor <;> norm_num [solvedWaterActCoeff]
  · rw [abs_le]
    constructor <;> norm_num [solvedMolalConcSolute]

/-- C9: the TDS-to-ion conversion conserves mass — for positive ion
molecular weights the two mass ratios sum exactly to 1, so the sum of the
two ion mass-flow constraint right-hand sides equals the TDS mass flow. -/
theorem c9_mass_ratio_conservation (a b tds : ℚ) (ha : 0 < a) (hb : 0 < b) :
    massRatioNa a b + massRatioCl a b = 1
    ∧ enrtlFlowMassIonRHS tds (massRatioNa a b)
        + enrtlFlowMassIonRHS tds (massRatioCl a b) = tds := by
  have hd : molMassIonMolecule a b ≠ 0 := by
    unfold molMassIonMolecule ionCoeffNa ionCoeffCl
    nlinarith
  constructor
  · unfold massRatioNa massRatioCl molMassIonMolecule ionCoeffNa ionCoeffCl at *
    field_simp
  · unfold enrtlFlowMassIonRHS massRatioNa massRatioCl molMassIonMolecule
      ionCoeffNa ionCoeffCl at *
    field_simp
    ring

/-- C9 witness: at the configured molecular weights of Na+ and Cl- and a
TDS flow of 0.35 kg/s, the mass ratios sum to 1 and the ion flows sum to
the TDS flow. -/
theorem c9_mass_ratio_conservation_witness :
    massRatioNa mwNa mwCl + massRatioCl mwNa mwCl = 1
    ∧ enrtlFlowMassIonRHS 0.35 (massRatioNa mwNa mwCl)
        + enrtlFlowMassIonRHS 0.35 (massRatioCl mwNa mwCl) = 0.35 :=
  c9_mass_ratio_conservation mwNa mwCl 0.35 (by norm_num [mwNa]) (by norm_num [mwCl])

/-- C10: when the eNRTL activity coefficient equals the constant ideal
activity coefficient parameter 1, the nonideal vapor-liquid equilibrium
constraint is the same equation as the ideal one, for every state. -/
theorem c10_nonideal_refines_ideal (g p xW psat : ℚ) (hg : g = idealActCoeff) :
    nonidealPhaseEquil g p xW psat = idealPhaseEquil p xW psat := by
  subst hg
  rfl

/-- C10 witness: at a concrete state with the activity coefficient set to 1,
the two equilibrium constraints coincide. -/
theorem c10_nonideal_refines_ideal_witness :
    nonidealPhaseEquil 1 30000 0.9 33333 = idealPhaseEquil 30000 0.9 33333 :=
  c10_nonideal_refines_ideal 1 30000 0.9 33333 rfl

/-- C5: the hydration model never produces a negative bulk-solvent
quantity — whenever the effective hydration demand exceeds the available
solvent the caller sees an OutOfRangeError (such states lie far beyond the
documented 6 mol/kg molality limit), and for every state within the
documented limit the bulk solvent mole fraction is non-negative. -/
theorem c5_hydration_bulk_solvent (m : ℚ) :
    (solventMolesPerKg < hydrationDemand m
      → computeBulkSolvent m = Except.error ModelError.outOfRangeError)
    ∧ (0 ≤ m → m ≤ molalityLimit
      → 0 ≤ bulkSolventMoleFrac m
        ∧ computeBulkSolvent m = Except.ok (bulkSolventMoleFrac m)) := by
  constructor
  · intro h
    have hm : molalityLimit < m := by
      unfold hydrationDemand ionCoeffNa ionCoeffCl hydNumNa hydNumCl at h
      unfold solventMolesPerKg mwH2O at h
      unfold molalityLimit
      norm_num at h ⊢
      linarith
    unfold computeBulkSolvent
    rw [if_pos hm]
  · intro h0 h6
    unfold molalityLimit at h6
    have hbulk : 0 < bulkSolventMoles m := by
      unfold bulkSolventMoles hydrationDemand solventMolesPerKg mwH2O
        ionCoeffNa ionCoeffCl hydNumNa hydNumCl
      norm_num
      linarith
    have htot : 0 < trueSpeciesTotal m := by
      unfold trueSpeciesTotal ionCoeffNa ionCoeffCl
      nlinarith
    constructor
    · unfold bulkSolventMoleFrac
      exact div_nonneg hbulk.le htot.le
    · unfold computeBulkSolvent
      rw [if_neg]
      unfold molalityLimit
      exact not_lt.mpr h6

/-- C5 witness: at molality 30 mol/kg the hydration demand 60.3 exceeds the
available 55.5 mol of solvent and the model surfaces the OutOfRangeError,
while at molality 5 mol/kg (within the documented limit) the bulk solvent
mole fraction is non-negative and returned normally. -/
theorem c5_hydration_bulk_solvent_witness :
    computeBulkSolvent 30 = Except.error ModelError.outOfRangeError
    ∧ 0 ≤ bulkSolventMoleFrac 5
    ∧ computeBulkSolvent 5 = Except.ok (bulkSolventMoleFrac 5) :=
  ⟨(c5_hydration_bulk_solvent 30).1
      (by norm_num [solventMolesPerKg, mwH2O, hydrationDemand,
        ionCoeffNa, ionCoeffCl, hydNumNa, hydNumCl]),
   ((c5_hydration_bulk_solvent 5).2 (by norm_num) (by norm_num [molalityLimit])).1,
   ((c5_hydration_bulk_solvent 5).2 (by norm_num) (by norm_num [molalityLimit])).2⟩

/-- C3: the tau tables are directional — the source configurations assign
8.885 to (H2O, "Na+, Cl-") but -4.549 to ("Na+, Cl-", H2O) (and 7.951
versus -3.984 in the refined variant), so no symmetry is forced, and in the
modelled NRTL short-range term exchanging tau(1,2) with tau(2,1) changes
the computed activity coefficient at the state x2 = 1. -/
theorem c3_tau_directional :
    tauLookup tauEvapExample (TauEnd.solv, TauEnd.ip Species.Na Species.Cl) = 8.885
    ∧ tauLookup tauEvapExample (TauEnd.ip Species.Na Species.Cl, TauEnd.solv) = -4.549
    ∧ tauLookup tauEvapExample (TauEnd.solv, TauEnd.ip Species.Na Species.Cl)
        ≠ tauLookup tauEvapExample (TauEnd.ip Species.Na Species.Cl, TauEnd.solv)
    ∧ tauLookup tauSingleRenrtl (TauEnd.solv, TauEnd.ip Species.Na Species.Cl)
        ≠ tauLookup tauSingleRenrtl (TauEnd.ip Species.Na Species.Cl, TauEnd.solv)
    ∧ lnGamma1 1 1 0 1 ≠ lnGamma1 1 0 1 1 := by
  refine ⟨rfl, rfl, ?_, ?_, ?_⟩
  · show (8.885 : ℚ) ≠ -4.549
    norm_num
  · show (7.951 : ℚ) ≠ -3.984
    norm_num
  have h1 : lnGamma1 1 1 0 1 = G 1 1 := by
    rw [lnGamma1_at_one]
    ring
  have h2 : lnGamma1 1 0 1 1 = 1 := by
    rw [lnGamma1_at_one]
    ring
  rw [h1, h2]
  have hlt : G 1 1 < 1 := by
    unfold G
    rw [show (-1 : ℝ) * 1 = -1 by ring]
    exact Real.exp_lt_one_iff.mpr (by norm_num)
  exact ne_of_lt hlt

/-- C8: the guarded expressions are total by construction at every real
trial state — the logarithm argument is bounded below by the positive
epsGuard, the square-root argument is never negative, and the PDH
denominator is bounded below by 1, hence never zero. -/
theorem c8_guarded_expressions_total :
    ∀ xW i : ℝ,
      epsGuard ≤ guardedMoleFrac xW
      ∧ 0 < guardedMoleFrac xW
      ∧ 0 ≤ guardedIonicStrength i
      ∧ (1 : ℝ) ≤ pdhDenom i
      ∧ pdhDenom i ≠ 0 := by
  intro xW i
  have h1 : epsGuard ≤ guardedMoleFrac xW := le_max_right _ _
  have heps : (0 : ℝ) < epsGuard := by norm_num [epsGuard]
  have h2 : 0 ≤ guardedIonicStrength i := le_max_right _ _
  have hs : 0 ≤ guardedSqrtIonic i := Real.sqrt_nonneg _
  have hr : (0 : ℝ) ≤ rhoClosest := by norm_num [rhoClosest]
  have h3 : (1 : ℝ) ≤ pdhDenom i := by
    unfold pdhDenom
    nlinarith
  exact ⟨h1, lt_of_lt_of_le heps h1, h2, h3, by linarith⟩

lemma lnGamma1_continuousAt_zero (a t12 t21 : ℝ) :
    ContinuousAt (lnGamma1 a t12 t21) 0 := by
  have hW : ContinuousAt (denW a t21) 0 := (denW_continuous a t21).continuousAt
  have hS2 : ContinuousAt (fun x2 => (denS a t12 x2) ^ 2) 0 :=
    ((denS_continuous a t12).pow 2).continuousAt
  have hW0 : denW a t21 0 ≠ 0 := by
    rw [denW_at_zero]
    norm_num
  have hS0 : (denS a t12 0) ^ 2 ≠ 0 := by
    rw [denS_at_zero]
    exact pow_ne_zero 2 (G_ne_zero a t12)
  unfold lnGamma1
  exact (continuous_pow 2).continuousAt.mul
    (((continuousAt_const.div hW hW0).pow 2).const_mul t21 |>.add
      (continuousAt_const.div hS2 hS0))

lemma lnGamma2_continuousAt_zero (a t12 t21 : ℝ) :
    ContinuousAt (lnGamma2 a t12 t21) 0 := by
  have hW2 : ContinuousAt (fun x2 => (denW a t21 x2) ^ 2) 0 :=
    ((denW_continuous a t21).pow 2).continuousAt
  have hS : ContinuousAt (denS a t12) 0 := (denS_continuous a t12).continuousAt
  have hW0 : (denW a t21 0) ^ 2 ≠ 0 := by
    rw [denW_at_zero]
    norm_num
  have hS0 : denS a t12 0 ≠ 0 := by
    rw [denS_at_zero]
    exact G_ne_zero a t12
  unfold lnGamma2
  exact ((continuous_const.sub continuous_id).pow 2).continuousAt.mul
    (((continuousAt_const.div hS hS0).pow 2).const_mul t12 |>.add
      (continuousAt_const.div hW2 hW0))

/-- C4: in the pure-solvent limit the modelled PDH contribution to ln gamma
of the solvent is 0 at zero ionic strength and tends to 0 with the ionic
strength (which vanishes when the ion mole fractions vanish), and under the
symmetric reference state the activity coefficient of each species in the
modelled binary system tends to 1 as the solvent mole fraction tends to 1
(solute mole fraction x2 tends to 0). -/
theorem c4_pure_solvent_limit :
    (∀ dh r : ℝ, lnGammaSolventPDH dh r 0 = 0
      ∧ Filter.Tendsto (lnGammaSolventPDH dh r) (nhds 0) (nhds 0))
    ∧ ionicStrengthNaCl 0 0 = 0
    ∧ (∀ a t12 t21 : ℝ,
        Filter.Tendsto (fun x2 => Real.exp (lnGamma1 a t12 t21 x2)) (nhds 0) (nhds 1)
        ∧ Filter.Tendsto (fun x2 => Real.exp (lnGamma2sym a t12 t21 x2)) (nhds 0) (nhds 1)) := by
  refine ⟨fun dh r => ?_, by simp [ionicStrengthNaCl], fun a t12 t21 => ?_⟩
  · have h0 : lnGammaSolventPDH dh r 0 = 0 := by
      simp [lnGammaSolventPDH]
    refine ⟨h0, ?_⟩
    have hnum : ContinuousAt (fun i : ℝ => 2 * dh * (i * Real.sqrt i)) 0 :=
      (continuous_const.mul (continuous_id.mul Real.continuous_sqrt)).continuousAt
    have hden : ContinuousAt (fun i : ℝ => 1 + r * Real.sqrt i) 0 :=
      (continuous_const.add (continuous_const.mul Real.continuous_sqrt)).continuousAt
    have hden0 : (1 : ℝ) + r * Real.sqrt 0 ≠ 0 := by
      rw [Real.sqrt_zero]
      norm_num
    have hc : ContinuousAt (lnGammaSolventPDH dh r) 0 := by
      unfold lnGammaSolventPDH
      exact hnum.div hden hden0
    have ht := hc.tendsto
    rwa [h0] at ht
  · constructor
    · have h1 := (lnGamma1_continuousAt_zero a t12 t21).tendsto
      rw [lnGamma1_at_zero] at h1
      have h2 : Filter.Tendsto (fun x2 => Real.exp (lnGamma1 a t12 t21 x2))
          (nhds 0) (nhds (Real.exp 0)) := (Real.continuous_exp.tendsto 0).comp h1
      rwa [Real.exp_zero] at h2
    · have hsym : ContinuousAt (lnGamma2sym a t12 t21) 0 := by
        unfold lnGamma2sym
        exact (lnGamma2_continuousAt_zero a t12 t21).sub continuousAt_const
      have h1 := hsym.tendsto
      rw [lnGamma2sym_at_zero] at h1
      have h2 : Filter.Tendsto (fun x2 => Real.exp (lnGamma2sym a t12 t21 x2))
          (nhds 0) (nhds (Real.exp 0)) := (Real.continuous_exp.tendsto 0).comp h1
      rwa [Real.exp_zero] at h2
